import Mathlib

/-!
Verification model of `check-labels.py`, a command-line tool that resolves a
Bluesky post reference to an AT-URI and fetches the post's moderation labels,
logging in and retrying once when the unauthenticated request is rejected
with HTTP 401.

Network responses, environment variables and interactive prompts are
modelled as an explicit `World` of oracles; running the program produces the
list of outbound calls (the event trace), the printed lines, and the exit
code.  String processing is modelled over `List Char`, which coincides with
Python's code-point view of `str` for the ASCII inputs this tool handles.
-/

namespace CheckLabels

/-- Boolean prefix test on character lists. -/
def isPrefixOfL : List Char → List Char → Bool
  | [], _ => true
  | _ :: _, [] => false
  | a :: as, b :: bs => a == b && isPrefixOfL as bs

/-- Substring occurrence, mirroring Python's `sub in s` operator. -/
def containsSubL (sub : List Char) : List Char → Bool
  | [] => isPrefixOfL sub []
  | a :: rest => isPrefixOfL sub (a :: rest) || containsSubL sub rest

/-- `sub in s` on strings. -/
def containsSub (s sub : String) : Bool := containsSubL sub.data s.data

/-- `s.startswith(sub)` on strings. -/
def startsWithL (s sub : String) : Bool := isPrefixOfL sub.data s.data

/-- Value of a hexadecimal digit character, if it is one. -/
def hexVal (c : Char) : Option Nat :=
  let n := c.toNat
  if 48 ≤ n ∧ n ≤ 57 then some (n - 48)
  else if 97 ≤ n ∧ n ≤ 102 then some (n - 87)
  else if 65 ≤ n ∧ n ≤ 70 then some (n - 55)
  else none

/-- `urllib.parse.unquote_plus` restricted to single-byte escapes: `+` becomes
a space and a valid `%XX` escape becomes the character with code `XX`; an
invalid escape is kept verbatim.  (Multi-byte UTF-8 escapes are outside this
model; the tool's URLs are ASCII.) -/
def unquoteAux : List Char → List Char
  | [] => []
  | '+' :: rest => ' ' :: unquoteAux rest
  | '%' :: c1 :: c2 :: rest =>
    match hexVal c1, hexVal c2 with
    | some h, some l => Char.ofNat (16 * h + l) :: unquoteAux rest
    | _, _ => '%' :: unquoteAux (c1 :: c2 :: rest)
  | c :: rest => c :: unquoteAux rest

/-- Characters before the first occurrence of `c`. -/
def takeUntilChar (c : Char) : List Char → List Char
  | [] => []
  | d :: rest => if d == c then [] else d :: takeUntilChar c rest

/-- Characters after the first occurrence of `c`, when it occurs. -/
def afterChar (c : Char) : List Char → Option (List Char)
  | [] => none
  | d :: rest => if d == c then some rest else afterChar c rest

/-- The query component `urlparse(s).query`: `urlsplit` first cuts the
fragment at the first `#`, then the query is everything after the first `?`
of the remainder. -/
def urlQuery (s : String) : List Char :=
  (afterChar '?' (takeUntilChar '#' s.data)).getD []

/-- Split a character list on every occurrence of `c`. -/
def splitOnCharL (c : Char) : List Char → List (List Char)
  | [] => [[]]
  | d :: rest =>
    let r := splitOnCharL c rest
    if d == c then [] :: r
    else
      match r with
      | h :: t => (d :: h) :: t
      | [] => [[d]]

/-- Split at the first occurrence of `c`, Python's `split(c, 1)` when `c`
occurs. -/
def splitFirstOn (c : Char) : List Char → Option (List Char × List Char)
  | [] => none
  | d :: rest =>
    if d == c then some ([], rest)
    else (splitFirstOn c rest).map fun p => (d :: p.1, p.2)

/-- `urllib.parse.parse_qs` with default options, as a list of (name, value)
pairs in order: fields are split on `&`, a field that is empty, has no `=`,
or has an empty value is dropped, and names and values are unquoted. -/
def parseQsPairs (query : List Char) : List (String × String) :=
  (splitOnCharL '&' query).filterMap fun pair =>
    match pair with
    | [] => none
    | _ :: _ =>
      match splitFirstOn '=' pair with
      | none => none
      | some (name, value) =>
        if value.isEmpty then none
        else some (String.mk (unquoteAux name), String.mk (unquoteAux value))

/-- `params.get(name, [None])[0]`: the first value bound to `name`. -/
def qsGet (pairs : List (String × String)) (name : String) : Option String :=
  (pairs.filter fun p => p.1 == name).head?.map Prod.snd

/-- Python `\s` on the ASCII range: space, tab, newline, carriage return,
vertical tab, form feed. -/
def isSpaceChar (c : Char) : Bool :=
  c == ' ' || c == '\t' || c == '\n' || c == '\r' || c == '\x0b' || c == '\x0c'

/-- Character class `[^/]` of the first capture group. -/
def notSlash (c : Char) : Bool := c != '/'

/-- Character class of the second capture group: not slash, question mark or
whitespace. -/
def rkeyChar (c : Char) : Bool := !(c == '/' || c == '?' || isSpaceChar c)

/-- Consume the literal `lit` at the head of `s`. -/
def dropLiteral : List Char → List Char → Option (List Char)
  | [], s => some s
  | _ :: _, [] => none
  | c :: cs, d :: ds => if c == d then dropLiteral cs ds else none

/-- One or more characters satisfying `p`, taken greedily, with the rest. -/
def takeWhile1 (p : Char → Bool) (s : List Char) : Option (List Char × List Char) :=
  let r := s.takeWhile p
  if r.isEmpty then none else some (r, s.drop r.length)

/-- One attempt of the regular expression
`profile/([^/]+)/post/([^/?\s]+)` anchored at the head of `s`.  Greedy
matching needs no backtracking here: the first group cannot cross the slash
that the following literal must consume, and nothing follows the second
group. -/
def matchProfilePost (s : List Char) : Option (String × String) := do
  let s1 ← dropLiteral "profile/".data s
  let (g1, s2) ← takeWhile1 notSlash s1
  let s3 ← dropLiteral "/post/".data s2
  let (g2, _) ← takeWhile1 rkeyChar s3
  pure (String.mk g1, String.mk g2)

/-- `re.search` for the pattern above: the leftmost position at which it
matches, scanning left to right. -/
def reSearchProfilePost : List Char → Option (String × String)
  | [] => none
  | c :: rest =>
    match matchProfilePost (c :: rest) with
    | some r => some r
    | none => reSearchProfilePost rest

/-- The substring whose presence selects the API-URL input form. -/
def getRecordMarker : String := "xrpc/com.atproto.repo.getRecord"

/-- Response of the `com.atproto.identity.resolveHandle` endpoint as the code
observes it: either `raise_for_status` throws, or the decoded body has an
optional `did` field. -/
inductive ResolveResp where
  | httpError
  | ok (did : Option String)
deriving Repr, DecidableEq

/-- `parse_input` from `check-labels.py`.  The oracle `resolve` fixes the
response of the identity-resolution endpoint; the first component of the
result is the list of handles the function sent to that endpoint, the second
the returned AT-URI or the raised `ValueError` message. -/
def parse_input (resolve : String → ResolveResp) (input_str : String) :
    List String × Except String String :=
  if startsWithL input_str "at://" then
    ([], Except.ok input_str)
  else if containsSub input_str getRecordMarker then
    ([],
      let params := parseQsPairs (urlQuery input_str)
      match qsGet params "repo", qsGet params "collection", qsGet params "rkey" with
      | some r, some c, some k =>
        if r ≠ "" ∧ c ≠ "" ∧ k ≠ "" then
          Except.ok ("at://" ++ r ++ "/" ++ c ++ "/" ++ k)
        else Except.error "Could not parse API URL"
      | _, _, _ => Except.error "Could not parse API URL")
  else if containsSub input_str "bsky.app" then
    match reSearchProfilePost input_str.data with
    | some (handle, rkey) =>
      ([handle],
        match resolve handle with
        | ResolveResp.httpError => Except.error "HTTPError"
        | ResolveResp.ok none => Except.error "Could not resolve handle to DID"
        | ResolveResp.ok (some d) =>
          if d ≠ "" then
            Except.ok ("at://" ++ d ++ "/app.bsky.feed.post/" ++ rkey)
          else Except.error "Could not resolve handle to DID")
    | none => ([], Except.error "Could not parse Bluesky URL")
  else ([], Except.error "Unrecognized input format")

/-- A label object from the response payload; `val` and `src` may be absent,
the code reads them with `.get(..., 'unknown')`. -/
structure Label where
  val : Option String
  src : Option String
deriving Repr, DecidableEq

/-- A post object from the response payload.  The code indexes `author`,
`author.handle` and `record` directly and reads `record.text` and `labels`
with `.get`, so the former are modelled as present and the latter as
optional. -/
structure Post where
  authorHandle : String
  recordText : Option String
  labels : Option (List Label)
deriving Repr, DecidableEq

/-- Decoded body of `app.bsky.feed.getPosts`; the `posts` field is read with
`data.get('posts', [])`, so it may be absent. -/
structure PostsData where
  posts : Option (List Post)
deriving Repr, DecidableEq

/-- Outcome of one `requests.get` to the post-lookup endpoint as the code
observes it: a decoded success body, an HTTP error status raised by
`raise_for_status`, or a non-HTTP transport exception. -/
inductive FetchResp where
  | ok (data : PostsData)
  | httpError (status : Nat)
  | netError
deriving Repr, DecidableEq

/-- Outcome of the `com.atproto.server.createSession` call: an HTTP error
raised by `raise_for_status`, or a decoded body whose `accessJwt` field may
be absent (indexing it then raises `KeyError`). -/
inductive LoginResp where
  | httpError
  | ok (accessJwt : Option String)
deriving Repr, DecidableEq

/-- The fixed environment of one run: the responses the network will give to
each call the program can make, the optional `BLUESKY_HANDLE` and
`BLUESKY_APP_PASSWORD` environment variables, and what the user would type
at the two interactive prompts. -/
structure World where
  firstFetch : FetchResp
  login : LoginResp
  retryFetch : FetchResp
  envHandle : Option String
  envPassword : Option String
  promptedHandle : String
  promptedPassword : String
deriving Repr, DecidableEq

/-- Observable calls of one run: an outbound request to the post-lookup
endpoint (with the value of its `Authorization` header, if any), an outbound
login request (with its credentials), an environment read, or an interactive
prompt. -/
inductive Event where
  | getPosts (uri : String) (authHeader : Option String)
  | createSession (identifier password : String)
  | readEnvHandle
  | readEnvPassword
  | promptHandle
  | promptPassword
deriving Repr, DecidableEq

/-- Printed lines of one run (constants stand for the fixed message texts of
the script; data-carrying constructors record what is interpolated). -/
inductive Line where
  | checking (uri : String)
  | blank
  | attemptingUnauth
  | authRequired
  | authSuccess
  | postNotFound
  | postFound
  | author (handle : String)
  | text (t : String)
  | foundLabels (n : Nat)
  | labelItem (val src : String)
  | noLabels
  | fullLabelData
  | jsonDump (labels : List Label)
  | errorMsg
deriving Repr, DecidableEq

/-- `get_post` from `check-labels.py`: the emitted request event (carrying
the `Bearer` header exactly when a token is passed) together with the
response the world supplies for this call. -/
def get_post (resp : FetchResp) (at_uri : String) (access_token : Option String) :
    Event × FetchResp :=
  (Event.getPosts at_uri (access_token.map fun t => "Bearer " ++ t), resp)

/-- `create_session` from `check-labels.py`: the emitted login event and
either the `accessJwt` of the decoded body or the exception
(`HTTPError` from `raise_for_status`, or `KeyError` when the field is
absent). -/
def create_session (resp : LoginResp) (identifier password : String) :
    Event × Except Unit String :=
  (Event.createSession identifier password,
    match resp with
    | LoginResp.httpError => Except.error ()
    | LoginResp.ok none => Except.error ()
    | LoginResp.ok (some jwt) => Except.ok jwt)

/-- Credential lookup for the handle: `os.environ.get('BLUESKY_HANDLE')`,
falling back to `input(...)` when unset or empty (Python truthiness). -/
def getHandle (w : World) : List Event × String :=
  match w.envHandle with
  | some h =>
    if h = "" then ([Event.readEnvHandle, Event.promptHandle], w.promptedHandle)
    else ([Event.readEnvHandle], h)
  | none => ([Event.readEnvHandle, Event.promptHandle], w.promptedHandle)

/-- Credential lookup for the password: `os.environ.get('BLUESKY_APP_PASSWORD')`,
falling back to `getpass(...)` when unset or empty. -/
def getPassword (w : World) : List Event × String :=
  match w.envPassword with
  | some p =>
    if p = "" then ([Event.readEnvPassword, Event.promptPassword], w.promptedPassword)
    else ([Event.readEnvPassword], p)
  | none => ([Event.readEnvPassword, Event.promptPassword], w.promptedPassword)

/-- Lines 139-171 of `main`: render a successfully fetched payload, giving
the printed lines and the exit code (1 via `sys.exit(1)` when the posts list
is empty, otherwise 0 at the end of `main`). -/
def renderResult (data : PostsData) : List Line × Nat :=
  match data.posts.getD [] with
  | [] => ([Line.postNotFound], 1)
  | post :: _ =>
    let labels := post.labels.getD []
    ([Line.postFound, Line.blank,
      Line.author post.authorHandle,
      Line.text (String.mk ((post.recordText.getD "").data.take 100)),
      Line.blank]
      ++ (if labels.isEmpty then [Line.noLabels]
          else Line.foundLabels labels.length :: Line.blank ::
            labels.map fun l => Line.labelItem (l.val.getD "unknown") (l.src.getD "unknown"))
      ++ [Line.blank, Line.fullLabelData, Line.jsonDump labels], 0)

/-- Result of one run: the outbound-call/prompt trace, the printed lines,
and the process exit code. -/
structure RunResult where
  events : List Event
  lines : List Line
  exitCode : Nat
deriving Repr, DecidableEq

/-- Lines 107-175 of `main`, from a successfully parsed AT-URI on: the first
`get_post` is unauthenticated; an `HTTPError` with status 401 triggers
credential lookup, `create_session` and exactly one authenticated retry;
every other exception reaches the top-level handler, which prints the error
line and exits 1. -/
def runMain (w : World) (at_uri : String) : RunResult :=
  let pre := [Line.checking at_uri, Line.blank, Line.attemptingUnauth]
  let (ev1, r1) := get_post w.firstFetch at_uri none
  match r1 with
  | FetchResp.ok data =>
    let (ls, code) := renderResult data
    ⟨[ev1], pre ++ ls, code⟩
  | FetchResp.httpError status =>
    if status = 401 then
      let (evH, handle) := getHandle w
      let (evP, password) := getPassword w
      let (evL, lr) := create_session w.login handle password
      match lr with
      | Except.error _ =>
        ⟨ev1 :: (evH ++ evP ++ [evL]), pre ++ [Line.authRequired, Line.errorMsg], 1⟩
      | Except.ok jwt =>
        let (ev2, r2) := get_post w.retryFetch at_uri (some jwt)
        match r2 with
        | FetchResp.ok data =>
          let (ls, code) := renderResult data
          ⟨ev1 :: (evH ++ evP ++ [evL, ev2]),
            pre ++ [Line.authRequired, Line.authSuccess, Line.blank] ++ ls, code⟩
        | _ =>
          ⟨ev1 :: (evH ++ evP ++ [evL, ev2]),
            pre ++ [Line.authRequired, Line.authSuccess, Line.blank, Line.errorMsg], 1⟩
    else ⟨[ev1], pre ++ [Line.errorMsg], 1⟩
  | FetchResp.netError => ⟨[ev1], pre ++ [Line.errorMsg], 1⟩

/-- The payload `main` ends up rendering, when any: the body of the first
fetch when it succeeds, or of the retry when the first fetch returned 401
and the login succeeded. -/
def finalData (w : World) : Option PostsData :=
  match w.firstFetch with
  | FetchResp.ok d => some d
  | FetchResp.httpError status =>
    if status = 401 then
      match w.login with
      | LoginResp.ok (some _) =>
        match w.retryFetch with
        | FetchResp.ok d => some d
        | _ => none
      | _ => none
    else none
  | FetchResp.netError => none

/-- The `Authorization` headers of the post-lookup calls of a trace, in
order. -/
def authHeaders (evs : List Event) : List (Option String) :=
  evs.filterMap fun e =>
    match e with
    | Event.getPosts _ h => some h
    | _ => none

/-- Number of login calls in a trace. -/
def sessionCount (evs : List Event) : Nat :=
  (evs.filter fun e =>
    match e with
    | Event.createSession _ _ => true
    | _ => false).length

/-- Credential-acquisition events (environment reads and prompts) of a
trace. -/
def credentialEvents (evs : List Event) : List Event :=
  evs.filter fun e =>
    match e with
    | Event.readEnvHandle => true
    | Event.readEnvPassword => true
    | Event.promptHandle => true
    | Event.promptPassword => true
    | _ => false

/-- A string has no slash character. -/
def slashFree (s : String) : Bool := s.data.all fun c => c != '/'

/-- The canonical triple form `at://<account>/<collection>/<record-key>`,
with nonempty slash-free components. -/
def IsCanonicalTriple (s : String) : Prop :=
  ∃ a c k, a ≠ "" ∧ c ≠ "" ∧ k ≠ "" ∧
    slashFree a = true ∧ slashFree c = true ∧ slashFree k = true ∧
    s = "at://" ++ a ++ "/" ++ c ++ "/" ++ k

/-- Input form 1 of the spec: the input is already a canonical `at://`
triple. -/
def Form1 (s : String) : Prop := IsCanonicalTriple s

/-- Input form 2 of the spec: a record-lookup API URL whose query carries a
repository account, a collection and a record key (nonempty slash-free
tokens, per the glossary's notion of these components). -/
def Form2 (s : String) : Prop :=
  startsWithL s "at://" = false ∧
  containsSub s getRecordMarker = true ∧
  ∃ r c k,
    qsGet (parseQsPairs (urlQuery s)) "repo" = some r ∧
    qsGet (parseQsPairs (urlQuery s)) "collection" = some c ∧
    qsGet (parseQsPairs (urlQuery s)) "rkey" = some k ∧
    r ≠ "" ∧ c ≠ "" ∧ k ≠ "" ∧
    slashFree r = true ∧ slashFree c = true ∧ slashFree k = true

/-- Input form 3 of the spec: a web profile/post URL matching the pattern,
for which the identity-resolution oracle returns a nonempty (slash-free)
account identifier. -/
def Form3 (resolve : String → ResolveResp) (s : String) : Prop :=
  startsWithL s "at://" = false ∧
  containsSub s getRecordMarker = false ∧
  containsSub s "bsky.app" = true ∧
  ∃ h k d, reSearchProfilePost s.data = some (h, k) ∧
    resolve h = ResolveResp.ok (some d) ∧ d ≠ "" ∧ slashFree d = true

/-- Claim C7: for every input string already in canonical `at://` form, the
resolver returns the input unchanged and contacts no endpoint. -/
theorem c7_canonical_identity (resolve : String → ResolveResp) (s : String)
    (h : startsWithL s "at://" = true) :
    parse_input resolve s = ([], Except.ok s) := by
  simp [parse_input, h]

/-- Witness for C7 at a concrete canonical input. -/
theorem c7_canonical_identity_witness :
    parse_input (fun _ => ResolveResp.httpError)
        "at://did:plc:abc123/app.bsky.feed.post/xyz" =
      ([], Except.ok "at://did:plc:abc123/app.bsky.feed.post/xyz") :=
  c7_canonical_identity (fun _ => ResolveResp.httpError)
    "at://did:plc:abc123/app.bsky.feed.post/xyz" (by decide)

/-- Claim C2: when the unauthenticated post-lookup succeeds, the whole trace
is that single unauthenticated call: the login endpoint is never invoked and
no credential is read from the environment or prompted for. -/
theorem c2_no_login_on_success (w : World) (uri : String) (d : PostsData)
    (h : w.firstFetch = FetchResp.ok d) :
    (runMain w uri).events = [Event.getPosts uri none] := by
  simp [runMain, get_post, h]

/-- Witness for C2 at a concrete world. -/
theorem c2_no_login_on_success_witness :
    (runMain ⟨FetchResp.ok ⟨some []⟩, LoginResp.httpError, FetchResp.netError,
        some "alice", some "pw", "ph", "pp"⟩ "at://u").events =
      [Event.getPosts "at://u" none] :=
  c2_no_login_on_success _ "at://u" ⟨some []⟩ rfl

/-- Claim C1: when the unauthenticated post-lookup fails with 401 and the
login succeeds with token `jwt`, the run performs exactly one login call and
exactly two post-lookup calls, the second carrying `Bearer jwt` as its
`Authorization` header — whatever the outcome of that retried call, no
further attempt is made. -/
theorem c1_login_retry_once (w : World) (uri jwt : String)
    (h1 : w.firstFetch = FetchResp.httpError 401)
    (h2 : w.login = LoginResp.ok (some jwt)) :
    sessionCount (runMain w uri).events = 1 ∧
    authHeaders (runMain w uri).events = [none, some ("Bearer " ++ jwt)] := by
  cases heh : w.envHandle <;> cases hep : w.envPassword <;>
    cases hr : w.retryFetch <;>
    simp [runMain, get_post, create_session, getHandle, getPassword,
      h1, h2, heh, hep, hr, sessionCount, authHeaders] <;>
    split_ifs <;>
    simp [sessionCount, authHeaders]

/-- Witness for C1 at a concrete world whose retried call fails. -/
theorem c1_login_retry_once_witness :
    sessionCount (runMain ⟨FetchResp.httpError 401, LoginResp.ok (some "tok"),
        FetchResp.netError, some "alice", none, "ph", "pp"⟩ "at://u").events = 1 ∧
    authHeaders (runMain ⟨FetchResp.httpError 401, LoginResp.ok (some "tok"),
        FetchResp.netError, some "alice", none, "ph", "pp"⟩ "at://u").events =
      [none, some ("Bearer " ++ "tok")] :=
  c1_login_retry_once _ "at://u" "tok" rfl rfl

/-- Claim C3: when the unauthenticated post-lookup fails with 401 and the
subsequent login fails (HTTP error, or response without `accessJwt`), the
run exits with status 1 and no second post-lookup call is attempted. -/
theorem c3_login_failure_exits (w : World) (uri : String)
    (h1 : w.firstFetch = FetchResp.httpError 401)
    (h2 : w.login = LoginResp.httpError ∨ w.login = LoginResp.ok none) :
    (runMain w uri).exitCode = 1 ∧
    authHeaders (runMain w uri).events = [none] ∧
    sessionCount (runMain w uri).events = 1 := by
  rcases h2 with h2 | h2 <;>
    cases heh : w.envHandle <;> cases hep : w.envPassword <;>
      simp [runMain, get_post, create_session, getHandle, getPassword,
        h1, h2, heh, hep, sessionCount, authHeaders] <;>
      split_ifs <;>
      simp [sessionCount, authHeaders]

/-- Witness for C3 at a concrete world whose login is rejected. -/
theorem c3_login_failure_exits_witness :
    (runMain ⟨FetchResp.httpError 401, LoginResp.httpError,
        FetchResp.ok ⟨some []⟩, none, none, "ph", "pp"⟩ "at://u").exitCode = 1 ∧
    authHeaders (runMain ⟨FetchResp.httpError 401, LoginResp.httpError,
        FetchResp.ok ⟨some []⟩, none, none, "ph", "pp"⟩ "at://u").events = [none] ∧
    sessionCount (runMain ⟨FetchResp.httpError 401, LoginResp.httpError,
        FetchResp.ok ⟨some []⟩, none, none, "ph", "pp"⟩ "at://u").events = 1 :=
  c3_login_failure_exits _ "at://u" rfl (Or.inl rfl)

/-- Whenever a run obtains a payload, its printed lines are an
error-free preamble followed by the rendering of that payload, and its exit
code is the rendering's. -/
theorem runMain_finalData (w : World) (uri : String) (d : PostsData)
    (h : finalData w = some d) :
    ∃ pre, (runMain w uri).lines = pre ++ (renderResult d).1 ∧
      Line.errorMsg ∉ pre ∧ (runMain w uri).exitCode = (renderResult d).2 := by
  rcases hrend : renderResult d with ⟨ls, code⟩
  cases hf : w.firstFetch with
  | ok d2 =>
    have hd : d2 = d := by simpa [finalData, hf] using h
    subst hd
    exact ⟨[Line.checking uri, Line.blank, Line.attemptingUnauth],
      by simp [runMain, get_post, hf, hrend], by simp,
      by simp [runMain, get_post, hf, hrend]⟩
  | httpError s =>
    by_cases hs : s = 401
    · subst hs
      cases hl : w.login with
      | httpError => simp [finalData, hf, hl] at h
      | ok jo =>
        cases jo with
        | none => simp [finalData, hf, hl] at h
        | some jwt =>
          cases hr : w.retryFetch with
          | ok d2 =>
            have hd : d2 = d := by simpa [finalData, hf, hl, hr] using h
            subst hd
            rcases hgh : getHandle w with ⟨evH, hnd⟩
            rcases hgp : getPassword w with ⟨evP, pwd⟩
            exact ⟨[Line.checking uri, Line.blank, Line.attemptingUnauth,
                Line.authRequired, Line.authSuccess, Line.blank],
              by simp [runMain, get_post, create_session, hf, hl, hr, hgh, hgp, hrend],
              by simp,
              by simp [runMain, get_post, create_session, hf, hl, hr, hgh, hgp, hrend]⟩
          | httpError s2 => simp [finalData, hf, hl, hr] at h
          | netError => simp [finalData, hf, hl, hr] at h
    · simp [finalData, hf, hs] at h
  | netError => simp [finalData, hf] at h

/-- Claim C8: when the fetched payload has an empty posts list, the run
prints the distinct not-found line and exits 1, and the transport-error line
is never printed. -/
theorem c8_not_found (w : World) (uri : String) (d : PostsData)
    (h1 : finalData w = some d) (h2 : d.posts.getD [] = []) :
    Line.postNotFound ∈ (runMain w uri).lines ∧
    (runMain w uri).exitCode = 1 ∧
    Line.errorMsg ∉ (runMain w uri).lines := by
  obtain ⟨pre, hl, hpre, hc⟩ := runMain_finalData w uri d h1
  have hrd : renderResult d = ([Line.postNotFound], 1) := by
    simp [renderResult, h2]
  refine ⟨?_, ?_, ?_⟩
  · rw [hl, hrd]; simp
  · rw [hc, hrd]
  · rw [hl, hrd]; simp [List.mem_append, hpre]

/-- Witness for C8 at a concrete world whose response carries no post. -/
theorem c8_not_found_witness :
    Line.postNotFound ∈ (runMain ⟨FetchResp.ok ⟨some []⟩, LoginResp.httpError,
        FetchResp.netError, none, none, "ph", "pp"⟩ "at://u").lines ∧
    (runMain ⟨FetchResp.ok ⟨some []⟩, LoginResp.httpError,
        FetchResp.netError, none, none, "ph", "pp"⟩ "at://u").exitCode = 1 ∧
    Line.errorMsg ∉ (runMain ⟨FetchResp.ok ⟨some []⟩, LoginResp.httpError,
        FetchResp.netError, none, none, "ph", "pp"⟩ "at://u").lines :=
  c8_not_found _ "at://u" ⟨some []⟩ rfl rfl

/-- Claim C9: a first post without a `labels` field is rendered exactly like
one with an empty label list, and in such a run the no-labels line is
printed, the dumped label array is empty, and the exit code is 0. -/
theorem c9_missing_labels_as_empty (w : World) (uri : String) (p : Post)
    (rest : List Post)
    (h1 : finalData w = some ⟨some (p :: rest)⟩) (h2 : p.labels = none) :
    renderResult ⟨some (p :: rest)⟩ =
      renderResult ⟨some ({ p with labels := some [] } :: rest)⟩ ∧
    Line.noLabels ∈ (runMain w uri).lines ∧
    Line.jsonDump [] ∈ (runMain w uri).lines ∧
    (runMain w uri).exitCode = 0 := by
  obtain ⟨pre, hl, hpre, hc⟩ := runMain_finalData w uri _ h1
  refine ⟨by simp [renderResult, h2], ?_, ?_, ?_⟩
  · rw [hl]; simp [renderResult, h2]
  · rw [hl]; simp [renderResult, h2]
  · rw [hc]; simp [renderResult, h2]

/-- Witness for C9 at a concrete world whose first post has no `labels`
field. -/
theorem c9_missing_labels_as_empty_witness :
    renderResult ⟨some (⟨"alice", some "hi", none⟩ :: [])⟩ =
      renderResult ⟨some ({ (⟨"alice", some "hi", none⟩ : Post) with
        labels := some [] } :: [])⟩ ∧
    Line.noLabels ∈ (runMain ⟨FetchResp.ok ⟨some [⟨"alice", some "hi", none⟩]⟩,
        LoginResp.httpError, FetchResp.netError, none, none, "ph", "pp"⟩
        "at://u").lines ∧
    Line.jsonDump [] ∈ (runMain ⟨FetchResp.ok ⟨some [⟨"alice", some "hi", none⟩]⟩,
        LoginResp.httpError, FetchResp.netError, none, none, "ph", "pp"⟩
        "at://u").lines ∧
    (runMain ⟨FetchResp.ok ⟨some [⟨"alice", some "hi", none⟩]⟩,
        LoginResp.httpError, FetchResp.netError, none, none, "ph", "pp"⟩
        "at://u").exitCode = 0 :=
  c9_missing_labels_as_empty _ "at://u" ⟨"alice", some "hi", none⟩ [] rfl rfl

/-- Claim C10: rendering depends only on the first post of the list — any
tail yields the same output — and the displayed author, text and label dump
all come from that first post. -/
theorem c10_first_post_only (w : World) (uri : String) (p : Post)
    (rest rest' : List Post)
    (h : finalData w = some ⟨some (p :: rest)⟩) :
    renderResult ⟨some (p :: rest)⟩ = renderResult ⟨some (p :: rest')⟩ ∧
    Line.author p.authorHandle ∈ (runMain w uri).lines ∧
    Line.text (String.mk ((p.recordText.getD "").data.take 100)) ∈
      (runMain w uri).lines ∧
    Line.jsonDump (p.labels.getD []) ∈ (runMain w uri).lines := by
  obtain ⟨pre, hl, hpre, hc⟩ := runMain_finalData w uri _ h
  refine ⟨by simp [renderResult], ?_, ?_, ?_⟩ <;>
    rw [hl] <;> simp [renderResult]

/-- Witness for C10 at a concrete world whose response carries two posts. -/
theorem c10_first_post_only_witness :
    renderResult ⟨some (⟨"alice", some "hi", some [⟨some "spam", some "mod1"⟩]⟩ ::
        [⟨"bob", none, none⟩])⟩ =
      renderResult ⟨some (⟨"alice", some "hi", some [⟨some "spam", some "mod1"⟩]⟩ :: [])⟩ ∧
    Line.author "alice" ∈ (runMain ⟨FetchResp.ok ⟨some
        [⟨"alice", some "hi", some [⟨some "spam", some "mod1"⟩]⟩, ⟨"bob", none, none⟩]⟩,
        LoginResp.httpError, FetchResp.netError, none, none, "ph", "pp"⟩
        "at://u").lines ∧
    Line.text (String.mk (("hi" : String).data.take 100)) ∈
      (runMain ⟨FetchResp.ok ⟨some
        [⟨"alice", some "hi", some [⟨some "spam", some "mod1"⟩]⟩, ⟨"bob", none, none⟩]⟩,
        LoginResp.httpError, FetchResp.netError, none, none, "ph", "pp"⟩
        "at://u").lines ∧
    Line.jsonDump [⟨some "spam", some "mod1"⟩] ∈
      (runMain ⟨FetchResp.ok ⟨some
        [⟨"alice", some "hi", some [⟨some "spam", some "mod1"⟩]⟩, ⟨"bob", none, none⟩]⟩,
        LoginResp.httpError, FetchResp.netError, none, none, "ph", "pp"⟩
        "at://u").lines :=
  c10_first_post_only _ "at://u" ⟨"alice", some "hi", some [⟨some "spam", some "mod1"⟩]⟩
    [⟨"bob", none, none⟩] [] rfl

theorem startsWithL_append_at (r : String) :
    startsWithL ("at://" ++ r) "at://" = true := by
  have hd : ("at://" : String).data = ['a', 't', ':', '/', '/'] := rfl
  simp [startsWithL, String.data_append, hd, isPrefixOfL]

theorem takeWhile1_eq_some {p : Char → Bool} {s g rest : List Char}
    (h : takeWhile1 p s = some (g, rest)) :
    g ≠ [] ∧ ∀ c ∈ g, p c = true := by
  by_cases he : (s.takeWhile p).isEmpty
  · simp [takeWhile1, he] at h
  · simp [takeWhile1, he] at h
    obtain ⟨h1, _⟩ := h
    subst h1
    exact ⟨by simpa [List.isEmpty_iff] using he,
      fun c hc => List.mem_takeWhile_imp hc⟩

theorem matchProfilePost_rkey {s : List Char} {g1 g2 : String}
    (h : matchProfilePost s = some (g1, g2)) :
    g2 ≠ "" ∧ slashFree g2 = true := by
  unfold matchProfilePost at h
  cases hd1 : dropLiteral "profile/".data s with
  | none => rw [hd1] at h; simp at h
  | some s1 =>
    rw [hd1] at h; simp only [Option.bind_eq_bind, Option.some_bind] at h
    cases ht1 : takeWhile1 notSlash s1 with
    | none => rw [ht1] at h; simp at h
    | some p1 =>
      rw [ht1] at h
      obtain ⟨g1c, s2⟩ := p1
      simp only [Option.some_bind] at h
      cases hd2 : dropLiteral "/post/".data s2 with
      | none => rw [hd2] at h; simp at h
      | some s3 =>
        rw [hd2] at h; simp only [Option.some_bind] at h
        cases ht2 : takeWhile1 rkeyChar s3 with
        | none => rw [ht2] at h; simp at h
        | some p2 =>
          rw [ht2] at h
          obtain ⟨g2c, s4⟩ := p2
          simp only [Option.some_bind, Option.pure_def, Option.some.injEq,
            Prod.mk.injEq] at h
          obtain ⟨hne, hall⟩ := takeWhile1_eq_some ht2
          obtain ⟨_, hg2⟩ := h
          subst hg2
          refine ⟨by simpa [String.ext_iff] using hne, ?_⟩
          simp only [slashFree, List.all_eq_true]
          intro c hc
          have := hall c hc
          simp only [rkeyChar, Bool.not_eq_true', Bool.or_eq_false_iff] at this
          simpa using this.1.1

theorem reSearch_eq_some {s : List Char} {r : String × String}
    (h : reSearchProfilePost s = some r) :
    ∃ t, matchProfilePost t = some r := by
  induction s with
  | nil => simp [reSearchProfilePost] at h
  | cons c rest ih =>
    rw [reSearchProfilePost] at h
    cases hm : matchProfilePost (c :: rest) with
    | some r2 => rw [hm] at h; exact ⟨c :: rest, by rw [hm]; exact h⟩
    | none => rw [hm] at h; exact ih h

theorem feedPostSplit (d rk : String) :
    "at://" ++ d ++ "/app.bsky.feed.post/" ++ rk =
      "at://" ++ d ++ "/" ++ "app.bsky.feed.post" ++ "/" ++ rk := by
  apply String.ext
  have hmid : ("/app.bsky.feed.post/" : String).data =
      ("/" : String).data ++ ("app.bsky.feed.post" : String).data ++
        ("/" : String).data := rfl
  simp [String.data_append, hmid]

/-- Claim C4: for the three recognized input forms (the input is already a
canonical triple; or it is a record-lookup API URL carrying the three
query parameters; or it is a web profile/post URL whose segment the identity
oracle resolves), the resolver is deterministic and its output is always of
the canonical triple form. -/
theorem c4_resolver_canonical (resolve : String → ResolveResp) (s o o' : String)
    (hform : Form1 s ∨ Form2 s ∨ Form3 resolve s)
    (h : (parse_input resolve s).2 = Except.ok o)
    (h' : (parse_input resolve s).2 = Except.ok o') :
    o = o' ∧ IsCanonicalTriple o := by
  have hoo : o = o' := by rw [h] at h'; exact Except.ok.inj h'
  refine ⟨hoo, ?_⟩
  rcases hform with h1 | hf2 | hf3
  · obtain ⟨a, c, k, ha, hc, hk, hsa, hsc, hsk, hs⟩ := h1
    have hst : startsWithL s "at://" = true := by
      rw [hs, String.append_assoc, String.append_assoc, String.append_assoc,
        String.append_assoc]
      exact startsWithL_append_at _
    have ho : s = o := by simpa [parse_input, hst] using h
    rw [← ho]
    exact ⟨a, c, k, ha, hc, hk, hsa, hsc, hsk, hs⟩
  · obtain ⟨hst, hmark, r, c, k, hr, hc, hk, hner, hnec, hnek, hsr, hsc, hsk⟩ := hf2
    have ho : "at://" ++ r ++ "/" ++ c ++ "/" ++ k = o := by
      simpa [parse_input, hst, hmark, hr, hc, hk, hner, hnec, hnek] using h
    rw [← ho]
    exact ⟨r, c, k, hner, hnec, hnek, hsr, hsc, hsk, rfl⟩
  · obtain ⟨hst, hmark, happ, hdl, rk, d, hre, hres, hdne, hsd⟩ := hf3
    have ho : "at://" ++ d ++ "/app.bsky.feed.post/" ++ rk = o := by
      simpa [parse_input, hst, hmark, happ, hre, hres, hdne] using h
    obtain ⟨t, hmt⟩ := reSearch_eq_some hre
    obtain ⟨hkne, hksf⟩ := matchProfilePost_rkey hmt
    rw [← ho]
    exact ⟨d, "app.bsky.feed.post", rk, hdne, by decide, hkne, hsd, by decide,
      hksf, feedPostSplit d rk⟩

/-- Witness for C4 at a concrete form-1 input. -/
theorem c4_resolver_canonical_witness :
    "at://did:plc:abc123/app.bsky.feed.post/xyz" =
      "at://did:plc:abc123/app.bsky.feed.post/xyz" ∧
    IsCanonicalTriple "at://did:plc:abc123/app.bsky.feed.post/xyz" :=
  c4_resolver_canonical (fun _ => ResolveResp.httpError)
    "at://did:plc:abc123/app.bsky.feed.post/xyz"
    "at://did:plc:abc123/app.bsky.feed.post/xyz"
    "at://did:plc:abc123/app.bsky.feed.post/xyz"
    (Or.inl ⟨"did:plc:abc123", "app.bsky.feed.post", "xyz", by decide, by decide,
      by decide, by decide, by decide, by decide, by decide⟩)
    rfl rfl

/-- Counterexample to claim C5: on a web URL whose profile segment is
already an account identifier (it starts with `did:`), `parse_input` still
sends that segment to the identity-resolution endpoint — the claimed
"skip resolution when the segment is already an account identifier" check
does not exist in the code. -/
theorem c5_counterexample_did_still_resolved :
    startsWithL "did:plc:abc" "did:" = true ∧
    (parse_input (fun _ => ResolveResp.ok (some "did:plc:999"))
        "https://bsky.app/profile/did:plc:abc/post/xyz").1 = ["did:plc:abc"] := by
  decide

/-- Claim C5 as amended: for every web profile/post URL reaching form 3
whose pattern matches, exactly one blocking handle-resolution call is made,
carrying the extracted profile segment — unconditionally, whether or not
that segment is already an account identifier. -/
theorem c5_amended_always_resolves (resolve : String → ResolveResp)
    (s seg rk : String)
    (h1 : startsWithL s "at://" = false)
    (h2 : containsSub s getRecordMarker = false)
    (h3 : containsSub s "bsky.app" = true)
    (h4 : reSearchProfilePost s.data = some (seg, rk)) :
    (parse_input resolve s).1 = [seg] := by
  simp [parse_input, h1, h2, h3, h4]

/-- Witness for the amended C5 at the URL whose segment is a DID. -/
theorem c5_amended_always_resolves_witness :
    (parse_input (fun _ => ResolveResp.ok (some "did:plc:999"))
        "https://bsky.app/profile/did:plc:abc/post/xyz").1 = ["did:plc:abc"] :=
  c5_amended_always_resolves (fun _ => ResolveResp.ok (some "did:plc:999"))
    "https://bsky.app/profile/did:plc:abc/post/xyz" "did:plc:abc" "xyz"
    (by decide) (by decide) (by decide) (by decide)

/-- Counterexample to claim C6: a single non-canonical input can satisfy
both content substring checks — the one selecting form 2 and the one
selecting form 3 — so the two checks are not mutually exclusive. -/
theorem c6_counterexample_both_markers :
    startsWithL "bsky.app/xrpc/com.atproto.repo.getRecord?repo=r" "at://" = false ∧
    containsSub "bsky.app/xrpc/com.atproto.repo.getRecord?repo=r"
      getRecordMarker = true ∧
    containsSub "bsky.app/xrpc/com.atproto.repo.getRecord?repo=r"
      "bsky.app" = true := by
  decide

/-- Claim C6 as amended: the two branches are disambiguated by check order,
not by exclusive substring checks — whenever the form-2 marker is present,
the input is handled by the form-2 branch (or returned unchanged when
canonical): no identity-resolution call is made and the outcome does not
depend on the identity-resolution oracle at all. -/
theorem c6_amended_order_disambiguates
    (resolve resolve' : String → ResolveResp) (s : String)
    (h : containsSub s getRecordMarker = true) :
    (parse_input resolve s).1 = [] ∧
    parse_input resolve s = parse_input resolve' s := by
  by_cases hst : startsWithL s "at://" <;> simp [parse_input, hst, h]

/-- Witness for the amended C6 at the input carrying both markers, under two
disagreeing identity-resolution oracles. -/
theorem c6_amended_order_disambiguates_witness :
    (parse_input (fun _ => ResolveResp.httpError)
        "bsky.app/xrpc/com.atproto.repo.getRecord?repo=r").1 = [] ∧
    parse_input (fun _ => ResolveResp.httpError)
        "bsky.app/xrpc/com.atproto.repo.getRecord?repo=r" =
      parse_input (fun _ => ResolveResp.ok (some "did:plc:z"))
        "bsky.app/xrpc/com.atproto.repo.getRecord?repo=r" :=
  c6_amended_order_disambiguates (fun _ => ResolveResp.httpError)
    (fun _ => ResolveResp.ok (some "did:plc:z"))
    "bsky.app/xrpc/com.atproto.repo.getRecord?repo=r" (by decide)

end CheckLabels
